import Mathlib

/-!
Shallow embedding of the flyte native scheduler executor
(scheduler/executor/workflow_executor.go): the catch-up driver, the
dispatch path with its bounded retry, the checkpointer iteration, the
snapshot boot reader and the reconcile loop body.  External
collaborators (admin client, cron wrapper, repositories) are supplied
as explicit environments; machine state (watermark table, metrics
counters, snapshot rows) is passed explicitly.
-/

/-- Time instants; the Go zero time is 0 and `After` is `>`. -/
abbrev Instant := Nat

/-- Go errors observed by the executor, up to what the code inspects:
a gRPC status error carries its code; other constructors tag errors
from the identifier generator, repositories and the codec; the two
wrap constructors model the fmt.Errorf wrapping done in Run. -/
inductive GoErr
  | grpc (code : Nat)
  | identFailure
  | repoErr (tag : Nat)
  | codecErr (tag : Nat)
  | wrapRead (e : GoErr)
  | wrapCatchup (e : GoErr)
deriving DecidableEq, Repr

/-- grpc codes.AlreadyExists. -/
def codeAlreadyExists : Nat := 6

/-- status.Code: the code of a gRPC status error, codes.Unknown (2) otherwise. -/
def statusCode : GoErr → Nat
  | GoErr.grpc c => c
  | _ => 2

/-- models.SchedulableEntity, restricted to the fields the executor reads. -/
structure SchedulableEntity where
  project : String
  domain : String
  name : String
  version : String
  active : Bool
  updatedAt : Instant
  kickoffTimeInputArg : String
deriving DecidableEq, Repr

/-- Modelled from the spec: GetScheduleName is not under src/; section 3 of
the spec says it is a stable string derived from the launch-plan identity
{project, domain, name, version}. -/
def scheduleName (s : SchedulableEntity) : String :=
  s.project ++ ":" ++ s.domain ++ ":" ++ s.name ++ ":" ++ s.version

/-- The in-memory watermark table (SnapshotV1.LastTimes), as an association
list from schedule name to last fired instant. -/
abbrev Snapshot := List (String × Instant)

/-- Snapshoter.GetLastExecutionTime: the stored instant, or the zero time
when the entry is absent. -/
def getLastExecutionTime : Snapshot → String → Instant
  | [], _ => 0
  | (k, v) :: rest, n => if k = n then v else getLastExecutionTime rest n

/-- Snapshoter.UpdateLastExecutionTime: Go map update, replacing an existing
entry or appending a fresh one. -/
def updateLastExecutionTime : Snapshot → String → Instant → Snapshot
  | [], n, t => [(n, t)]
  | (k, v) :: rest, n, t =>
    if k = n then (n, t) :: rest else (k, v) :: updateLastExecutionTime rest n t

/-- Snapshoter.IsEmpty. -/
def snapshotIsEmpty (s : Snapshot) : Bool := s.isEmpty

/-- The prometheus counters of schedulerMetrics that the embedded code bumps. -/
structure Metrics where
  failedExecution : Nat
  checkpointSaveErr : Nat
  checkpointCreationErr : Nat
  catchupErr : Nat
  scheduleRegistrationFailure : Nat
  scheduleReadFailure : Nat
deriving DecidableEq, Repr

/-- All counters at zero. -/
def mZero : Metrics := ⟨0, 0, 0, 0, 0, 0⟩

/-- FailedExecutionCounter.Inc n times. -/
def addFailed (m : Metrics) (n : Nat) : Metrics :=
  { m with failedExecution := m.failedExecution + n }

/-- wait.Backoff{Factor: 1.0, Steps: 30}: the retry budget used by fire. -/
def retrySteps : Nat := 30

/-- The retry predicate passed by fire to retry.OnError, together with the
FailedExecutionCounter increment it performs as a side effect: a nil error
is not retried; an error whose status code is AlreadyExists is not retried
and does not bump the counter; every other error bumps the counter and is
retried. -/
def fireRetryPredicate (e : Option GoErr) : Bool × Nat :=
  match e with
  | none => (false, 0)
  | some err =>
    if statusCode err = codeAlreadyExists then (false, 0) else (true, 1)

/-- retry.OnError over wait.ExponentialBackoff, specialised to the predicate
fire installs.  `admin n` is the error returned by the n-th CreateExecution
call (none for success).  Arguments: remaining backoff steps, next attempt
index, counter increments so far, last retriable error seen.  Result: the
error retry.OnError returns (after replacing ErrWaitTimeout by the last
retriable error), the total counter increments and the number of admin
calls made. -/
def retryOnError (admin : Nat → Option GoErr) :
    Nat → Nat → Nat → Option GoErr → Option GoErr × Nat × Nat
  | 0, attempt, failCnt, lastErr => (lastErr, failCnt, attempt)
  | steps + 1, attempt, failCnt, lastErr =>
    match admin attempt with
    | none => (none, failCnt, attempt + 1)
    | some e =>
      let p := fireRetryPredicate (some e)
      let cnt := failCnt + p.2
      if p.1 then
        if steps = 0 then (some e, cnt, attempt + 1)
        else retryOnError admin steps (attempt + 1) cnt (some e)
      else (some e, cnt, attempt + 1)

/-- Outcomes of the external collaborators of one fire call:
GetExecutionIdentifier and the per-attempt admin client results. -/
structure FireEnv where
  identResult : Except GoErr Unit
  admin : Nat → Option GoErr

/-- What one fire call returns and does: the returned error, the
FailedExecutionCounter increments, the number of CreateExecution calls and
the (discarded) result of retry.OnError. -/
structure FireResult where
  ret : Option GoErr
  failedExecutionInc : Nat
  attempts : Nat
  retryOutcome : Option GoErr
deriving DecidableEq, Repr

/-- workflowExecutor.fire: generate the execution identifier (propagating a
generation error), return nil if the schedule is no longer active, and
otherwise run the admin submission under the 30-step bounded retry,
discarding the retry result and returning nil. -/
def fire (env : FireEnv) (s : SchedulableEntity) (_t : Instant) : FireResult :=
  match env.identResult with
  | Except.error e => ⟨some e, 0, 0, none⟩
  | Except.ok _ =>
    if s.active = false then ⟨none, 0, 0, none⟩
    else
      match retryOnError env.admin retrySteps 0 0 none with
      | (e, cnt, att) => ⟨none, cnt, att, e⟩

/-- Outcomes of the external collaborators of the catch-up driver: the
GoCronWrapper.GetCatchUpTimes enumeration for a schedule over an interval,
and the FireEnv governing each fire of a schedule at an instant. -/
structure ExecEnv where
  getCatchUpTimes :
    SchedulableEntity → Instant → Instant → Except GoErr (List Instant)
  fireEnv : SchedulableEntity → Instant → FireEnv

/-- State produced by the catch-up functions: the returned error, the
watermark table, the metrics and the fire invocations performed in order
(schedule name, instant). -/
structure CatchUpOut where
  err : Option GoErr
  snap : Snapshot
  metrics : Metrics
  fires : List (String × Instant)
deriving DecidableEq, Repr

/-- The loop body of CatchUpSingleSchedule over the enumerated catch-up
instants: for each instant in order, take a rate-limiter token (pure here),
fire, feed the failure increments into the metrics; on a fire error bump
CatchupErrCounter and return the error, otherwise advance the watermark to
the instant and continue. -/
def catchUpInstants (env : ExecEnv) (s : SchedulableEntity) :
    List Instant → Snapshot → Metrics → List (String × Instant) → CatchUpOut
  | [], snap, m, fs => ⟨none, snap, m, fs⟩
  | t :: rest, snap, m, fs =>
    let r := fire (env.fireEnv s t) s t
    let m1 := addFailed m r.failedExecutionInc
    let fs1 := fs ++ [(scheduleName s, t)]
    match r.ret with
    | some e => ⟨some e, snap, { m1 with catchupErr := m1.catchupErr + 1 }, fs1⟩
    | none =>
      catchUpInstants env s rest
        (updateLastExecutionTime snap (scheduleName s) t) m1 fs1

/-- workflowExecutor.CatchUpSingleSchedule: enumerate the catch-up instants
through the cron wrapper (propagating an enumeration error) and stream them
through fire. -/
def catchUpSingleSchedule (env : ExecEnv) (s : SchedulableEntity)
    (fromT toT : Instant) (snap : Snapshot) (m : Metrics)
    (fs : List (String × Instant)) : CatchUpOut :=
  match env.getCatchUpTimes s fromT toT with
  | Except.error e => ⟨some e, snap, m, fs⟩
  | Except.ok ts => catchUpInstants env s ts snap m fs

/-- The fromTime computation of CatchUpAllSchedules for an active schedule:
start from updatedAt, and use the stored watermark instead when it is
non-zero and strictly after updatedAt. -/
def fromTimeOf (s : SchedulableEntity) (snap : Snapshot) : Instant :=
  let lastT := getLastExecutionTime snap (scheduleName s)
  if lastT ≠ 0 ∧ s.updatedAt < lastT then lastT else s.updatedAt

/-- workflowExecutor.CatchUpAllSchedules: skip inactive schedules with no
state change; for an active schedule compute fromTime and catch it up,
aborting the whole pass on the first error. -/
def catchUpAllSchedules (env : ExecEnv) :
    List SchedulableEntity → Instant → Snapshot → Metrics →
    List (String × Instant) → CatchUpOut
  | [], _, snap, m, fs => ⟨none, snap, m, fs⟩
  | s :: rest, toT, snap, m, fs =>
    if s.active = false then catchUpAllSchedules env rest toT snap m fs
    else
      let r := catchUpSingleSchedule env s (fromTimeOf s snap) toT snap m fs
      match r.err with
      | some _ => r
      | none => catchUpAllSchedules env rest toT r.snap r.metrics r.fires

/-- What one delivery of the live-tick callback (funcRef in Run) does: the
watermark table and metrics afterwards, and the number of CreateExecution
submissions made. -/
structure TickOut where
  snap : Snapshot
  metrics : Metrics
  attempts : Nat
deriving DecidableEq, Repr

/-- The funcRef closure registered by Run for live ticks: return at once if
the schedule is no longer active; otherwise take a token, fire, and on
success advance the watermark to the tick instant. -/
def liveTick (fe : FireEnv) (s : SchedulableEntity) (t : Instant)
    (snap : Snapshot) (m : Metrics) : TickOut :=
  if s.active = false then ⟨snap, m, 0⟩
  else
    let r := fire fe s t
    let m1 := addFailed m r.failedExecutionInc
    match r.ret with
    | some _ => ⟨snap, m1, r.attempts⟩
    | none => ⟨updateLastExecutionTime snap (scheduleName s) t, m1, r.attempts⟩


/-- Outcomes of the collaborators of one CheckPointState iteration: the
buffer contents and error produced by SnapshotReaderWriter.WriteSnapshot,
and the result of ScheduleEntitiesSnapshotRepo.CreateSnapShot. -/
structure CkptEnv where
  writeBytes : List Nat
  writeErr : Option GoErr
  saveErr : Option GoErr

/-- What one CheckPointState iteration does: the metrics afterwards, the
blob passed to CreateSnapShot when it was invoked, the snapshot rows after
the iteration and whether the loop continues to its next iteration. -/
structure CkptOut where
  metrics : Metrics
  persistCall : Option (List Nat)
  db : List (List Nat)
  continues : Bool
deriving DecidableEq, Repr

/-- One iteration of workflowExecutor.CheckPointState: when the watermark
table is empty, do nothing; otherwise encode it (an encode error only bumps
CheckPointCreationErrCounter), then unconditionally call CreateSnapShot
with whatever the buffer holds (a save error only bumps
CheckPointSaveErrCounter).  The loop always continues. -/
def checkPointIter (env : CkptEnv) (snap : Snapshot) (m : Metrics)
    (db : List (List Nat)) : CkptOut :=
  if snapshotIsEmpty snap then ⟨m, none, db, true⟩
  else
    let m1 :=
      match env.writeErr with
      | some _ =>
        { m with checkpointCreationErr := m.checkpointCreationErr + 1 }
      | none => m
    let db1 :=
      match env.saveErr with
      | some _ => db
      | none => db ++ [env.writeBytes]
    let m2 :=
      match env.saveErr with
      | some _ => { m1 with checkpointSaveErr := m1.checkpointSaveErr + 1 }
      | none => m1
    ⟨m2, some env.writeBytes, db1, true⟩

/-- The snapShotVersion constant. -/
def snapShotVersion : Nat := 1

/-- The empty SnapshotV1 watermark table. -/
def emptySnapshotV1 : Snapshot := []

/-- readSnapShot at boot: if the latest snapshot cannot be fetched from the
database or the blob cannot be decoded, log and return a fresh empty
watermark table; no error is surfaced (the return type carries none). -/
def readSnapShot (fetch : Except GoErr (List Nat))
    (decode : List Nat → Except GoErr Snapshot) : Snapshot :=
  match fetch with
  | Except.error _ => emptySnapshotV1
  | Except.ok blob =>
    match decode blob with
    | Except.error _ => emptySnapshotV1
    | Except.ok snap => snap

/-- Modelled from the spec: VersionedSnapshot.ReadSnapshot is not under
src/.  Per sections 3 and 6 of the spec, decoders reject a version they do
not understand (readers then fall back to an empty table); the decoding of
the understood version-1 payload stays abstract. -/
def versionedReadSnapshot (version : Nat)
    (decodeV1 : List Nat → Except GoErr Snapshot) (blob : List Nat) :
    Except GoErr Snapshot :=
  if version = snapShotVersion then decodeV1 blob
  else Except.error (GoErr.codecErr version)

/-- State carried by the reconcile loop of Run: the schedule slice it will
iterate next, the watermark table, the metrics and the names registered in
the cron wrapper. -/
structure LoopState where
  schedules : List SchedulableEntity
  snap : Snapshot
  metrics : Metrics
  registry : List String
deriving DecidableEq, Repr

/-- Outcomes of the collaborators of one reconcile iteration: the
GoCronWrapper.Register result per schedule, and the schedule slice and
error produced by this round of SchedulableEntityRepo.GetAll. -/
structure LoopEnv where
  regOutcome : SchedulableEntity → Option GoErr
  readOutcome : List SchedulableEntity × Option GoErr

/-- GoCronWrapper.DeRegister on the registry key set. -/
def deregisterName (reg : List String) (n : String) : List String :=
  reg.filter (fun k => decide (k ≠ n))

/-- GoCronWrapper.Register on the registry key set (idempotent replace). -/
def registerName (reg : List String) (n : String) : List String :=
  if reg.contains n then reg else reg ++ [n]

/-- The per-schedule body of the reconcile loop: deregister an inactive
schedule; register an active one, bumping
ScheduleRegistrationFailure on a registration error. -/
def reconcileOne (env : LoopEnv) (acc : List String × Metrics)
    (s : SchedulableEntity) : List String × Metrics :=
  if s.active = false then (deregisterName acc.1 (scheduleName s), acc.2)
  else
    match env.regOutcome s with
    | some _ =>
      (acc.1,
       { acc.2 with scheduleRegistrationFailure :=
          acc.2.scheduleRegistrationFailure + 1 })
    | none => (registerName acc.1 (scheduleName s), acc.2)

/-- What one pass of the reconcile loop of Run produces: either the state
for the next iteration, or an exit from the loop making Run return. -/
inductive LoopOutcome
  | next (st : LoopState)
  | done (r : Option GoErr)
deriving DecidableEq, Repr

/-- True exactly when the control loop exits (Run returns). -/
def isLoopExit : LoopOutcome → Bool
  | LoopOutcome.next _ => false
  | LoopOutcome.done _ => true

/-- One full pass of the `for true` reconcile loop of Run: reconcile every
schedule of the current slice into the cron wrapper, sleep, then re-read
the schedule slice (a read error bumps ScheduleReadFailure and sleeps the
extra backoff).  The `cancelled` flag is the state of the ambient context;
the body never consults it and has no exit path, so the outcome is always
`next`. -/
def runLoopStep (cancelled : Bool) (env : LoopEnv) (st : LoopState) :
    LoopOutcome :=
  let rm := st.schedules.foldl (reconcileOne env) (st.registry, st.metrics)
  match env.readOutcome with
  | (newScheds, some _) =>
    LoopOutcome.next
      ⟨newScheds, st.snap,
       { rm.2 with scheduleReadFailure := rm.2.scheduleReadFailure + 1 },
       rm.1⟩
  | (newScheds, none) => LoopOutcome.next ⟨newScheds, st.snap, rm.2, rm.1⟩

/-- How the boot part of Run ends: fail carries the error Run returns with
(before the checkpointer is spawned and before any schedule is registered
for live ticks); start carries the state the reconcile loop is entered
with, after the checkpointer goroutine is spawned. -/
inductive RunBootOut
  | fail (e : GoErr) (snap : Snapshot) (m : Metrics)
  | start (st : LoopState)
deriving DecidableEq, Repr

/-- The boot sequence of workflowExecutor.Run: read the schedule slice
(wrapping a read error), catch up all schedules until now (wrapping a
catch-up error); only on success spawn the checkpointer and enter the
reconcile loop with an empty registry. -/
def runBoot (env : ExecEnv) (getAll : Except GoErr (List SchedulableEntity))
    (toT : Instant) (snap : Snapshot) (m : Metrics) : RunBootOut :=
  match getAll with
  | Except.error e => RunBootOut.fail (GoErr.wrapRead e) snap m
  | Except.ok schedules =>
    let r := catchUpAllSchedules env schedules toT snap m []
    match r.err with
    | some e => RunBootOut.fail (GoErr.wrapCatchup e) r.snap r.metrics
    | none => RunBootOut.start ⟨schedules, r.snap, r.metrics, []⟩

/-! Concrete fixtures used by witnesses and counterexamples. -/

/-- An active schedule. -/
def sAct : SchedulableEntity := ⟨"p", "d", "n", "v", true, 3, "k"⟩

/-- The same schedule with its active flag cleared. -/
def sIna : SchedulableEntity := ⟨"p", "d", "n", "v", false, 3, "k"⟩

/-- A fire environment whose identifier generation succeeds and whose admin
client accepts the first submission. -/
def feOk : FireEnv := ⟨Except.ok (), fun _ => none⟩

/-- A fire environment whose identifier generation fails. -/
def feIdentFail : FireEnv := ⟨Except.error GoErr.identFailure, fun _ => none⟩

/-- A catch-up environment with one catch-up instant (5) where every admin
attempt fails with a retryable Internal (13) status. -/
def envAllFail : ExecEnv :=
  ⟨fun _ _ _ => Except.ok [5],
   fun _ _ => ⟨Except.ok (), fun _ => some (GoErr.grpc 13)⟩⟩

/-- A catch-up environment with one catch-up instant (5) where identifier
generation fails, the only exit path on which fire propagates an error. -/
def envIdentFail : ExecEnv :=
  ⟨fun _ _ _ => Except.ok [5],
   fun _ _ => ⟨Except.error GoErr.identFailure, fun _ => none⟩⟩

/-- A watermark table holding instant 7 for the fixture schedule. -/
def snapW : Snapshot := [("p:d:n:v", 7)]

/-- A checkpointer environment whose encode fails after writing nothing and
whose database save succeeds. -/
def ckptEncFail : CkptEnv := ⟨[], some (GoErr.codecErr 0), none⟩

/-- A checkpointer environment where both encode and save succeed. -/
def ckptOk : CkptEnv := ⟨[1, 2], none, none⟩

/-- A reconcile-loop environment: registration succeeds and the re-read
returns an empty slice with no error. -/
def envLoop0 : LoopEnv := ⟨fun _ => none, ([], none)⟩

/-- A reconcile-loop state holding one active schedule. -/
def stLoop0 : LoopState := ⟨[sAct], [], mZero, []⟩

/-- A version-1 decoder fixture that always produces a one-entry table. -/
def dec1Const : List Nat → Except GoErr Snapshot :=
  fun _ => Except.ok [("a", 1)]

/-! Helper lemmas shared by the claim theorems. -/

/-- The conditional of fromTimeOf computes the maximum of updatedAt and the
watermark. -/
theorem ite_watermark_max (u w : Nat) :
    (if w ≠ 0 ∧ u < w then w else u) = max u w := by
  by_cases h1 : w = 0
  · subst h1
    simp
  · by_cases h2 : u < w
    · rw [if_pos ⟨h1, h2⟩]
      omega
    · rw [if_neg (fun hc => h2 hc.2)]
      omega

/-- When every admin attempt fails with the same non-AlreadyExists error,
the bounded retry makes exactly as many attempts as it has steps, bumps the
failure counter once per attempt, and ends with that error. -/
theorem retryOnError_all_fail (admin : Nat → Option GoErr) (e : GoErr)
    (he : ∀ n, admin n = some e) (hc : ¬ statusCode e = codeAlreadyExists) :
    ∀ steps attempt cnt last,
      retryOnError admin (steps + 1) attempt cnt last =
        (some e, cnt + (steps + 1), attempt + (steps + 1)) := by
  intro steps
  induction steps with
  | zero =>
    intro attempt cnt last
    simp [retryOnError, he attempt, fireRetryPredicate, hc]
  | succ k ih =>
    intro attempt cnt last
    rw [retryOnError, he attempt]
    simp only [fireRetryPredicate, if_neg hc, if_pos]
    rw [if_neg (Nat.succ_ne_zero k)]
    rw [ih (attempt + 1) (cnt + 1) (some e)]
    refine congrArg (Prod.mk (some e)) ?_
    rw [Prod.mk.injEq]
    exact ⟨by omega, by omega⟩

/-- When every admin attempt fails with the same non-AlreadyExists error,
fire of an active schedule with a good identifier absorbs the exhausted
retry: it returns nil after 30 attempts and 30 failure increments. -/
theorem fire_all_fail (env : FireEnv) (s : SchedulableEntity) (t : Instant)
    (e : GoErr) (hok : env.identResult = Except.ok ())
    (hact : s.active = true) (he : ∀ n, env.admin n = some e)
    (hc : ¬ statusCode e = codeAlreadyExists) :
    fire env s t = ⟨none, retrySteps, retrySteps, some e⟩ := by
  unfold fire
  rw [hok]
  simp only [hact]
  have h30 : retrySteps = 29 + 1 := rfl
  rw [h30, retryOnError_all_fail env.admin e he hc 29 0 0 none]
  simp

/-! Claim theorems. -/

/-- Claim C3: for every active schedule processed by catch-up, the lower
bound of the replay interval equals the maximum of the updatedAt timestamp
and the stored watermark: an absent (zero) watermark or one not after
updatedAt gives fromTime = updatedAt, a watermark strictly after updatedAt
gives fromTime = the watermark; and catch-up of an active schedule indeed
proceeds from this bound. -/
theorem fromTime_is_max_of_updatedAt_and_watermark
    (s : SchedulableEntity) (snap : Snapshot) (env : ExecEnv)
    (rest : List SchedulableEntity) (toT : Instant) (m : Metrics)
    (fs : List (String × Instant)) :
    fromTimeOf s snap =
      max s.updatedAt (getLastExecutionTime snap (scheduleName s))
    ∧ (getLastExecutionTime snap (scheduleName s) = 0 ∨
        getLastExecutionTime snap (scheduleName s) ≤ s.updatedAt →
        fromTimeOf s snap = s.updatedAt)
    ∧ (s.updatedAt < getLastExecutionTime snap (scheduleName s) →
        fromTimeOf s snap = getLastExecutionTime snap (scheduleName s))
    ∧ (s.active = true →
        catchUpAllSchedules env (s :: rest) toT snap m fs =
          (match
              (catchUpSingleSchedule env s (fromTimeOf s snap) toT snap m
                fs).err with
           | some _ =>
             catchUpSingleSchedule env s (fromTimeOf s snap) toT snap m fs
           | none =>
             catchUpAllSchedules env rest toT
               (catchUpSingleSchedule env s (fromTimeOf s snap) toT snap m
                 fs).snap
               (catchUpSingleSchedule env s (fromTimeOf s snap) toT snap m
                 fs).metrics
               (catchUpSingleSchedule env s (fromTimeOf s snap) toT snap m
                 fs).fires)) := by
  have hmax : fromTimeOf s snap =
      max s.updatedAt (getLastExecutionTime snap (scheduleName s)) := by
    unfold fromTimeOf
    exact ite_watermark_max s.updatedAt
      (getLastExecutionTime snap (scheduleName s))
  refine ⟨hmax, ?_, ?_, ?_⟩
  · intro h
    rw [hmax]
    rcases h with h | h
    · rw [h]
      exact Nat.max_eq_left (Nat.zero_le _)
    · exact Nat.max_eq_left h
  · intro h
    rw [hmax]
    exact Nat.max_eq_right (Nat.le_of_lt h)
  · intro h
    simp [catchUpAllSchedules, h]

/-- Claim C3 witness: for the fixture schedule (updatedAt 3) and a stored
watermark 7 strictly after it, the replay lower bound is the watermark. -/
theorem fromTime_is_max_of_updatedAt_and_watermark_witness :
    sAct.updatedAt < getLastExecutionTime snapW (scheduleName sAct) ∧
    fromTimeOf sAct snapW = getLastExecutionTime snapW (scheduleName sAct) :=
  ⟨by decide,
   (fromTime_is_max_of_updatedAt_and_watermark sAct snapW envAllFail [] 9
      mZero []).2.2.1 (by decide)⟩

/-- Claim C6: a schedule whose active flag is false is skipped by catch-up
with no fire invocation and no watermark change (removing it from the head
of the slice changes nothing, and alone it yields the input state back),
and a live tick delivered for it returns with no admin submission and no
watermark update. -/
theorem inactive_schedule_no_fire_no_watermark
    (env : ExecEnv) (s : SchedulableEntity) (rest : List SchedulableEntity)
    (toT : Instant) (snap : Snapshot) (m : Metrics)
    (fs : List (String × Instant)) (fe : FireEnv) (t : Instant)
    (hina : s.active = false) :
    catchUpAllSchedules env (s :: rest) toT snap m fs =
      catchUpAllSchedules env rest toT snap m fs
    ∧ catchUpAllSchedules env [s] toT snap m fs = ⟨none, snap, m, fs⟩
    ∧ liveTick fe s t snap m = ⟨snap, m, 0⟩ := by
  refine ⟨?_, ?_, ?_⟩ <;> simp [catchUpAllSchedules, liveTick, hina]

/-- Claim C6 witness: the inactive fixture schedule is caught up with no
state change and a live tick for it makes zero submissions. -/
theorem inactive_schedule_no_fire_no_watermark_witness :
    sIna.active = false ∧
    catchUpAllSchedules envAllFail [sIna] 9 [] mZero [] =
      ⟨none, [], mZero, []⟩ ∧
    liveTick feOk sIna 5 [] mZero = ⟨[], mZero, 0⟩ :=
  ⟨rfl,
   (inactive_schedule_no_fire_no_watermark envAllFail sIna [] 9 [] mZero []
      feOk 5 rfl).2.1,
   (inactive_schedule_no_fire_no_watermark envAllFail sIna [] 9 [] mZero []
      feOk 5 rfl).2.2⟩

/-- Claim C7: on one checkpointer iteration, an empty watermark table means
nothing is encoded or persisted; a non-empty table is passed to
CreateSnapShot and, when the save succeeds, appended as a new snapshot row;
an encode error bumps the creation-error counter, a save error bumps the
save-error counter, and the loop continues in every case. -/
theorem checkpointer_iteration_behavior
    (env : CkptEnv) (snap : Snapshot) (m : Metrics) (db : List (List Nat)) :
    (snapshotIsEmpty snap = true →
      checkPointIter env snap m db = ⟨m, none, db, true⟩)
    ∧ (snapshotIsEmpty snap = false →
        (checkPointIter env snap m db).persistCall = some env.writeBytes)
    ∧ (snapshotIsEmpty snap = false → env.saveErr = none →
        (checkPointIter env snap m db).db = db ++ [env.writeBytes])
    ∧ (snapshotIsEmpty snap = false → env.writeErr ≠ none →
        (checkPointIter env snap m db).metrics.checkpointCreationErr =
          m.checkpointCreationErr + 1)
    ∧ (snapshotIsEmpty snap = false → env.saveErr ≠ none →
        (checkPointIter env snap m db).metrics.checkpointSaveErr =
          m.checkpointSaveErr + 1)
    ∧ (checkPointIter env snap m db).continues = true := by
  refine ⟨?_, ?_, ?_, ?_, ?_, ?_⟩
  · intro h
    simp [checkPointIter, h]
  · intro h
    rcases hw : env.writeErr with _ | e <;>
      rcases hs : env.saveErr with _ | e2 <;>
        simp [checkPointIter, h, hw, hs]
  · intro h hs
    rcases hw : env.writeErr with _ | e <;>
      simp [checkPointIter, h, hw, hs]
  · intro h hw
    rcases hw2 : env.writeErr with _ | e
    · exact absurd hw2 hw
    · rcases hs : env.saveErr with _ | e2 <;>
        simp [checkPointIter, h, hw2, hs]
  · intro h hs
    rcases hs2 : env.saveErr with _ | e2
    · exact absurd hs2 hs
    · rcases hw : env.writeErr with _ | e <;>
        simp [checkPointIter, h, hw, hs2]
  · rcases he : snapshotIsEmpty snap with _ | _ <;>
      rcases hw : env.writeErr with _ | e <;>
        rcases hs : env.saveErr with _ | e2 <;>
          simp [checkPointIter, he, hw, hs]

/-- Claim C7 witness: with a one-entry table and a fully successful
environment, the blob is passed to CreateSnapShot, appended as a new row,
and the loop continues. -/
theorem checkpointer_iteration_behavior_witness :
    snapshotIsEmpty snapW = false ∧
    (checkPointIter ckptOk snapW mZero []).persistCall = some [1, 2] ∧
    (checkPointIter ckptOk snapW mZero []).db = [[1, 2]] ∧
    (checkPointIter ckptOk snapW mZero []).continues = true :=
  ⟨rfl,
   (checkpointer_iteration_behavior ckptOk snapW mZero []).2.1 rfl,
   (checkpointer_iteration_behavior ckptOk snapW mZero []).2.2.1 rfl rfl,
   (checkpointer_iteration_behavior ckptOk snapW mZero []).2.2.2.2.2⟩

/-- Claim C9: when the latest snapshot cannot be fetched from the database,
or the blob cannot be decoded — in particular when the reader is configured
with a version it does not understand — readSnapShot yields a fresh empty
watermark table; its return type carries no error, so startup proceeds. -/
theorem readSnapShot_failure_yields_empty_table
    (fetch : Except GoErr (List Nat)) (v : Nat)
    (dec1 : List Nat → Except GoErr Snapshot) (blob : List Nat) (e : GoErr)
    (h : fetch = Except.error e ∨
         (fetch = Except.ok blob ∧
           versionedReadSnapshot v dec1 blob = Except.error e) ∨
         (fetch = Except.ok blob ∧ v ≠ snapShotVersion)) :
    readSnapShot fetch (versionedReadSnapshot v dec1) = emptySnapshotV1 := by
  rcases h with h | ⟨h1, h2⟩ | ⟨h1, h2⟩
  · simp [readSnapShot, h]
  · simp [readSnapShot, h1, h2]
  · simp [readSnapShot, h1, versionedReadSnapshot, h2]

/-- Claim C9 witness: a reader configured with version 2 over any blob
starts the executor with the empty watermark table. -/
theorem readSnapShot_failure_yields_empty_table_witness :
    (2 : Nat) ≠ snapShotVersion ∧
    readSnapShot (Except.ok [7]) (versionedReadSnapshot 2 dec1Const) =
      emptySnapshotV1 :=
  ⟨by decide,
   readSnapShot_failure_yields_empty_table (Except.ok [7]) 2 dec1Const [7]
     (GoErr.codecErr 2) (Or.inr (Or.inr ⟨rfl, by decide⟩))⟩

/-- Claim C10: in CheckPointState, an encode failure from WriteSnapshot does
not skip persistence: CreateSnapShot is still invoked with exactly the
bytes the buffer holds, the creation-error counter is bumped, and when the
save succeeds those (possibly empty or partial) bytes are appended as the
newest snapshot row. -/
theorem checkpointer_encode_failure_still_persists
    (env : CkptEnv) (snap : Snapshot) (m : Metrics) (db : List (List Nat))
    (e : GoErr) (hne : snapshotIsEmpty snap = false)
    (henc : env.writeErr = some e) :
    (checkPointIter env snap m db).persistCall = some env.writeBytes
    ∧ (env.saveErr = none →
        (checkPointIter env snap m db).db = db ++ [env.writeBytes])
    ∧ (checkPointIter env snap m db).metrics.checkpointCreationErr =
        m.checkpointCreationErr + 1 := by
  refine ⟨?_, ?_, ?_⟩
  · rcases hs : env.saveErr with _ | e2 <;>
      simp [checkPointIter, hne, henc, hs]
  · intro hs
    simp [checkPointIter, hne, henc, hs]
  · rcases hs : env.saveErr with _ | e2 <;>
      simp [checkPointIter, hne, henc, hs]

/-- Claim C10 witness: with a one-entry table, an encode failure that left
the buffer empty and a successful save, the empty blob is appended as the
newest snapshot row. -/
theorem checkpointer_encode_failure_still_persists_witness :
    snapshotIsEmpty snapW = false ∧
    ckptEncFail.writeErr = some (GoErr.codecErr 0) ∧
    (checkPointIter ckptEncFail snapW mZero []).persistCall = some [] ∧
    (checkPointIter ckptEncFail snapW mZero []).db = [[]] :=
  ⟨rfl, rfl,
   (checkpointer_encode_failure_still_persists ckptEncFail snapW mZero []
      (GoErr.codecErr 0) rfl rfl).1,
   (checkpointer_encode_failure_still_persists ckptEncFail snapW mZero []
      (GoErr.codecErr 0) rfl rfl).2.1 rfl⟩

/-- Claim C2 counterexample: fire does not return nil on every exit path;
on the exit path where execution-identifier generation fails, fire returns
that non-nil error to its caller. -/
theorem fire_returns_error_on_ident_failure_cex :
    (fire feIdentFail sAct 5).ret ≠ none := by decide

/-- Claim C2 (amended): whenever execution-identifier generation succeeds —
in particular on every path that reaches the admin client, including the
one where all 30 retry attempts fail — fire returns nil; the caller never
observes a dispatch error from fire.  Only an identifier-generation failure
is propagated. -/
theorem fire_returns_nil_when_ident_succeeds
    (env : FireEnv) (s : SchedulableEntity) (t : Instant)
    (hok : env.identResult = Except.ok ()) :
    (fire env s t).ret = none := by
  unfold fire
  rw [hok]
  by_cases ha : s.active = false
  · simp [ha]
  · simp only [ha]
    rcases hr : retryOnError env.admin retrySteps 0 0 none with ⟨e, cnt, att⟩
    simp [hr]

/-- Claim C2 witness: with a succeeding identifier generator and an admin
client that fails every one of the 30 attempts, fire still returns nil. -/
theorem fire_returns_nil_when_ident_succeeds_witness :
    (envAllFail.fireEnv sAct 5).identResult = Except.ok () ∧
    (fire (envAllFail.fireEnv sAct 5) sAct 5).ret = none :=
  ⟨rfl, fire_returns_nil_when_ident_succeeds (envAllFail.fireEnv sAct 5)
    sAct 5 rfl⟩

/-- Claim C4: the retry predicate classifies an AlreadyExists status as
non-retryable without bumping the failure counter and any other error as
retryable with one bump; an AlreadyExists answer on the first attempt makes
fire succeed after exactly one submission with no counter increment; an
admin client that always fails with any other error is retried for the
full budget of 30 attempts, each failed attempt bumping the
failed-execution counter. -/
theorem fire_retry_classification
    (env : FireEnv) (s : SchedulableEntity) (t : Instant) (e : GoErr)
    (hok : env.identResult = Except.ok ()) (hact : s.active = true) :
    (statusCode e = codeAlreadyExists →
      fireRetryPredicate (some e) = (false, 0))
    ∧ (statusCode e ≠ codeAlreadyExists →
        fireRetryPredicate (some e) = (true, 1))
    ∧ (statusCode e = codeAlreadyExists → env.admin 0 = some e →
        fire env s t = ⟨none, 0, 1, some e⟩)
    ∧ ((∀ n, env.admin n = some e) → statusCode e ≠ codeAlreadyExists →
        fire env s t = ⟨none, retrySteps, retrySteps, some e⟩) := by
  refine ⟨?_, ?_, ?_, ?_⟩
  · intro h
    simp [fireRetryPredicate, h]
  · intro h
    simp [fireRetryPredicate, h]
  · intro h ha0
    unfold fire
    rw [hok]
    simp only [hact]
    have h30 : retrySteps = 29 + 1 := rfl
    rw [h30, retryOnError, ha0]
    simp [fireRetryPredicate, h]
  · intro hall h
    exact fire_all_fail env s t e hok hact hall h

/-- Claim C4 witness: a first-attempt AlreadyExists (code 6) makes fire
succeed after one submission with no counter bump, while an always-failing
Internal (code 13) admin client yields 30 attempts and 30 bumps. -/
theorem fire_retry_classification_witness :
    (FireEnv.mk (Except.ok ()) (fun _ => some (GoErr.grpc 6))).identResult =
      Except.ok () ∧
    sAct.active = true ∧
    fire (FireEnv.mk (Except.ok ()) (fun _ => some (GoErr.grpc 6))) sAct 5 =
      ⟨none, 0, 1, some (GoErr.grpc 6)⟩ ∧
    fire (envAllFail.fireEnv sAct 5) sAct 5 =
      ⟨none, retrySteps, retrySteps, some (GoErr.grpc 13)⟩ :=
  ⟨rfl, rfl,
   (fire_retry_classification
      (FireEnv.mk (Except.ok ()) (fun _ => some (GoErr.grpc 6))) sAct 5
      (GoErr.grpc 6) rfl rfl).2.2.1 rfl rfl,
   (fire_retry_classification (envAllFail.fireEnv sAct 5) sAct 5
      (GoErr.grpc 13) rfl rfl).2.2.2 (fun _ => rfl) (by decide)⟩

/-- Claim C1 counterexample: with one catch-up instant (5) and an admin
client failing all 30 attempts with a retryable Internal status, the
dispatch failure is absorbed (no error, 30 counter bumps) but the watermark
entry for the schedule is NOT left unchanged: it moves from absent (zero)
to the failed instant. -/
theorem catchup_exhausted_retries_watermark_unchanged_cex :
    (catchUpSingleSchedule envAllFail sAct 0 9 [] mZero []).err = none ∧
    (catchUpSingleSchedule envAllFail sAct 0 9 []
        mZero []).metrics.failedExecution = 30 ∧
    getLastExecutionTime [] (scheduleName sAct) = 0 ∧
    getLastExecutionTime
        (catchUpSingleSchedule envAllFail sAct 0 9 [] mZero []).snap
        (scheduleName sAct) = 5 := by
  refine ⟨by decide, by decide, by decide, by decide⟩

/-- Claim C1 (amended): when the admin submission for a catch-up instant
exhausts its retry budget without a success or AlreadyExists, the failure
is absorbed into metrics (30 failed-execution bumps, no error returned) but
the watermark IS advanced to that instant, because fire returns nil; the
entry is left unchanged only when fire itself returns an error. -/
theorem catchup_exhausted_retries_advance_watermark
    (env : ExecEnv) (s : SchedulableEntity) (t : Instant) (snap : Snapshot)
    (m : Metrics) (fs : List (String × Instant)) (fromT toT : Instant)
    (e : GoErr) (hact : s.active = true)
    (hident : (env.fireEnv s t).identResult = Except.ok ())
    (hadmin : ∀ n, (env.fireEnv s t).admin n = some e)
    (hcode : ¬ statusCode e = codeAlreadyExists)
    (htimes : env.getCatchUpTimes s fromT toT = Except.ok [t]) :
    catchUpSingleSchedule env s fromT toT snap m fs =
      ⟨none, updateLastExecutionTime snap (scheduleName s) t,
       addFailed m retrySteps, fs ++ [(scheduleName s, t)]⟩ := by
  have hfire : fire (env.fireEnv s t) s t =
      ⟨none, retrySteps, retrySteps, some e⟩ :=
    fire_all_fail (env.fireEnv s t) s t e hident hact hadmin hcode
  simp [catchUpSingleSchedule, htimes, catchUpInstants, hfire]

/-- Claim C1 witness: the amended statement at the counterexample input:
the watermark table gains the failed instant and the failure counter gains
the full retry budget. -/
theorem catchup_exhausted_retries_advance_watermark_witness :
    sAct.active = true ∧
    catchUpSingleSchedule envAllFail sAct 0 9 [] mZero [] =
      ⟨none, updateLastExecutionTime [] (scheduleName sAct) 5,
       addFailed mZero retrySteps, [(scheduleName sAct, 5)]⟩ :=
  ⟨rfl,
   catchup_exhausted_retries_advance_watermark envAllFail sAct 5 [] mZero []
     0 9 (GoErr.grpc 13) rfl rfl (fun _ => rfl) (by decide) rfl⟩

/-- Claim C5: a non-nil fire error at a catch-up instant makes the instant
loop bump the catchup-error counter and stop with that error (the failing
instant is the last fire recorded, the watermark is not advanced to it and
later instants are not processed); CatchUpSingleSchedule is that loop on
the enumerated instants; CatchUpAllSchedules stops at the erring schedule
with the same error; and Run then fails before spawning the checkpointer
or registering any schedule for live ticks. -/
theorem fire_error_aborts_catchup_and_run
    (env : ExecEnv) (s : SchedulableEntity) (t : Instant)
    (rest : List Instant) (snap : Snapshot) (m : Metrics)
    (fs : List (String × Instant)) (fromT toT : Instant)
    (tail schedules : List SchedulableEntity) (e : GoErr)
    (hfire : (fire (env.fireEnv s t) s t).ret = some e) :
    (catchUpInstants env s (t :: rest) snap m fs =
      ⟨some e, snap,
       { addFailed m (fire (env.fireEnv s t) s t).failedExecutionInc with
          catchupErr := m.catchupErr + 1 },
       fs ++ [(scheduleName s, t)]⟩)
    ∧ (env.getCatchUpTimes s fromT toT = Except.ok (t :: rest) →
        catchUpSingleSchedule env s fromT toT snap m fs =
          catchUpInstants env s (t :: rest) snap m fs)
    ∧ (s.active = true →
        (catchUpSingleSchedule env s (fromTimeOf s snap) toT snap m
            fs).err = some e →
        catchUpAllSchedules env (s :: tail) toT snap m fs =
          catchUpSingleSchedule env s (fromTimeOf s snap) toT snap m fs)
    ∧ ((catchUpAllSchedules env schedules toT snap m []).err = some e →
        runBoot env (Except.ok schedules) toT snap m =
          RunBootOut.fail (GoErr.wrapCatchup e)
            (catchUpAllSchedules env schedules toT snap m []).snap
            (catchUpAllSchedules env schedules toT snap m []).metrics) := by
  refine ⟨?_, ?_, ?_, ?_⟩
  · simp [catchUpInstants, hfire, addFailed]
  · intro h
    simp [catchUpSingleSchedule, h]
  · intro hact herr
    simp [catchUpAllSchedules, hact, herr]
  · intro herr
    simp [runBoot, herr]

/-- Claim C5 witness: with identifier generation failing for the single
catch-up instant, the catch-up of the fixture schedule ends with that
error, and Run fails with the wrapped error before spawning the
checkpointer. -/
theorem fire_error_aborts_catchup_and_run_witness :
    (fire (envIdentFail.fireEnv sAct 5) sAct 5).ret =
      some GoErr.identFailure ∧
    runBoot envIdentFail (Except.ok [sAct]) 9 [] mZero =
      RunBootOut.fail (GoErr.wrapCatchup GoErr.identFailure)
        (catchUpAllSchedules envIdentFail [sAct] 9 [] mZero []).snap
        (catchUpAllSchedules envIdentFail [sAct] 9 [] mZero []).metrics :=
  ⟨by decide,
   (fire_error_aborts_catchup_and_run envIdentFail sAct 5 [] [] mZero [] 0 9
      [] [sAct] GoErr.identFailure (by decide)).2.2.2 (by decide)⟩

/-- Claim C8 counterexample: with the ambient context cancelled, a pass of
the reconcile loop still continues to the next iteration instead of
exiting, so Run does not return. -/
theorem runLoopStep_cancelled_still_continues_cex :
    isLoopExit (runLoopStep true envLoop0 stLoop0) = false := by decide

/-- Claim C8 (amended): cancellation of the ambient context does not make
the control loop exit: the loop body never consults the context and has no
break or return, so every pass continues to the next iteration regardless
of the cancellation flag and of the collaborators, and Run never returns
once catch-up has succeeded; only process teardown stops the loop. -/
theorem runLoopStep_never_exits
    (cancelled : Bool) (env : LoopEnv) (st : LoopState) :
    isLoopExit (runLoopStep cancelled env st) = false := by
  rcases h : env.readOutcome with ⟨ns, _ | e⟩ <;>
    simp [runLoopStep, h, isLoopExit]
